import Mathlib

/-!
Shallow embedding of `src/App.jsx` of the Camping-Note repository: a
single-page task-list client over a hosted auth + table-store backend.

Each asynchronous handler of the source is embedded as a pure function
from the pre-state and the backend response to the post-state; the
backend `{ data, error }` result shape is embedded as `DbResponse`.
The query issued by `fetchTasks`
(`select * where user_id = ? order by created_at desc`) is given its
table-store semantics by `runSelect`.  A small event system (`World`,
`stepWorld`) models the interleaving of session-change notifications
with in-flight fetches, which the source does not guard against.
-/

namespace CampingNote

/-- A row of the remote `tasks` table, as selected by `select("*")`:
identifier, title, owner, completion flag, creation timestamp. -/
structure Task where
  id : String
  title : String
  user_id : String
  is_completed : Bool
  created_at : Nat
deriving Repr, DecidableEq

/-- The slice of a provider session the client reads: `session.user.id`
and `session.user.email`. -/
structure Session where
  userId : String
  email : String
deriving Repr, DecidableEq

/-- The component state of `App`: `session`, `email`, `otpSent`,
`tasks`, `newTask`. -/
structure AppState where
  session : Option Session
  email : String
  otpSent : Bool
  tasks : List Task
  newTask : String
deriving Repr, DecidableEq

/-- A `{ data, error }` result bundle as returned by the table-store
client: `data` may be absent, `error` carries a message when present. -/
structure DbResponse (α : Type) where
  data : Option α
  error : Option String
deriving Repr, DecidableEq

/-- A `{ error }` result as returned by the auth calls
(`signInWithOtp`, `signOut`). -/
structure AuthResponse where
  error : Option String
deriving Repr, DecidableEq

/-- `session?.user?.id` followed by a truthiness test: the user id when
a session is present and its id is a nonempty string. -/
def sessionUserId (st : AppState) : Option String :=
  match st.session with
  | none => none
  | some s => if s.userId = "" then none else some s.userId

/-- The order requested by
`order("created_at", descending)`: creation timestamp
descending. -/
def createdDesc (a b : Task) : Prop := b.created_at ≤ a.created_at

instance : DecidableRel createdDesc := fun a b =>
  Nat.decLe b.created_at a.created_at

instance : IsTotal Task createdDesc :=
  ⟨fun a b => (Nat.le_total b.created_at a.created_at)⟩

instance : IsTrans Task createdDesc :=
  ⟨fun _ _ _ hab hbc => Nat.le_trans hbc hab⟩

/-- Table-store semantics of the query issued by `fetchTasks`:
`select("*").eq("user_id", userId).order("created_at", descending)`
over a table of rows, i.e. the rows owned by `userId` sorted by
creation timestamp descending. -/
def runSelect (table : List Task) (userId : String) : List Task :=
  (table.filter (fun t => t.user_id = userId)).insertionSort createdDesc

/-- Resolution of `fetchTasks`: on error only log; otherwise
`setTasks(data || [])`. -/
def fetchTasksResolve (st : AppState) (resp : DbResponse (List Task)) :
    AppState :=
  match resp.error with
  | some _ => st
  | none => { st with tasks := resp.data.getD [] }

/-- The `trim()` of JavaScript strings: remove leading and trailing
whitespace. -/
def jsTrim (s : String) : String :=
  ⟨((s.data.dropWhile Char.isWhitespace).reverse.dropWhile
      Char.isWhitespace).reverse⟩

/-- The insert payload `addTask` sends, when it sends one: `addTask`
returns early when `newTask.trim()` is empty or when
`session?.user?.id` is unavailable; otherwise it inserts
`{ title: newTask.trim(), user_id: userId }`. -/
def addTaskRequest (st : AppState) : Option (String × String) :=
  if jsTrim st.newTask = "" then none
  else
    match sessionUserId st with
    | none => none
    | some userId => some (jsTrim st.newTask, userId)

/-- The whole `addTask` handler: early returns leave the state as is;
on error only log; on success with a returned row, prepend the
server-returned record and clear `newTask`. -/
def addTaskStep (st : AppState) (resp : DbResponse Task) : AppState :=
  match addTaskRequest st with
  | none => st
  | some _ =>
    match resp.error with
    | some _ => st
    | none =>
      match resp.data with
      | some data => { st with tasks := data :: st.tasks, newTask := "" }
      | none => st

/-- The `toggleTask(id, isCompleted)` handler: on error only log; on
success, map the local list setting `is_completed` to `!isCompleted`
on the records whose `id` matches. -/
def toggleTaskStep (st : AppState) (id : String) (isCompleted : Bool)
    (resp : DbResponse Unit) : AppState :=
  match resp.error with
  | some _ => st
  | none =>
    { st with
      tasks := st.tasks.map (fun t =>
        if t.id = id then { t with is_completed := !isCompleted } else t) }

/-- The `deleteTask(id)` handler: on error only log; on success, keep
exactly the local records whose `id` differs. -/
def deleteTaskStep (st : AppState) (id : String) (resp : DbResponse Unit) :
    AppState :=
  match resp.error with
  | some _ => st
  | none => { st with tasks := st.tasks.filter (fun t => ¬ t.id = id) }

/-- The `signInWithEmail` handler: on error only log; on success
`setOtpSent(true)`.  It touches no other state. -/
def signInWithEmailStep (st : AppState) (resp : AuthResponse) : AppState :=
  match resp.error with
  | some _ => st
  | none => { st with otpSent := true }

/-- What the session effect does synchronously when the session changes:
store the new session, then either issue `fetchTasks(session.user.id)`
(recorded as the returned user id) or `setTasks([])`. -/
def sessionEffect (st : AppState) (s : Option Session) :
    Option String × AppState :=
  let st1 := { st with session := s }
  match sessionUserId st1 with
  | some uid => (some uid, st1)
  | none => (none, { st1 with tasks := [] })

/-- The client together with its in-flight fetches: each pending entry
is the user id a `fetchTasks` call was issued for and has not yet
resolved. -/
structure World where
  app : AppState
  pending : List String
deriving Repr, DecidableEq

/-- An observable event: a session-change notification, or the
resolution of the `i`-th in-flight fetch with the answer of the store for
its user id over the current remote `table`. -/
inductive Event where
  | sessionChange (s : Option Session)
  | resolveFetch (i : Nat) (table : List Task)
deriving Repr, DecidableEq

/-- One event step.  A session change runs the session effect, possibly
issuing a new fetch.  A fetch resolution applies `fetchTasksResolve`
with the query result for the user id the fetch was issued for —
unconditionally, as in the source, whatever the current session is. -/
def stepWorld (w : World) (e : Event) : World :=
  match e with
  | .sessionChange s =>
    match sessionEffect w.app s with
    | (some uid, st) => { app := st, pending := w.pending ++ [uid] }
    | (none, st) => { app := st, pending := w.pending }
  | .resolveFetch i table =>
    match w.pending.get? i with
    | some uid =>
      { app := fetchTasksResolve w.app
          { data := some (runSelect table uid), error := none },
        pending := w.pending.eraseIdx i }
    | none => w

/-- Run a sequence of events from a world. -/
def runEvents (w : World) (es : List Event) : World :=
  es.foldl stepWorld w

/-- Sample task owned by user A. -/
def taskA1 : Task :=
  { id := "t1", title := "pack tent", user_id := "A",
    is_completed := false, created_at := 1 }

/-- Second sample task owned by user A, created later. -/
def taskA2 : Task :=
  { id := "t3", title := "check stove", user_id := "A",
    is_completed := true, created_at := 3 }

/-- Sample task owned by user B. -/
def taskB1 : Task :=
  { id := "t2", title := "buy milk", user_id := "B",
    is_completed := false, created_at := 2 }

/-- Sample session of user A. -/
def sessionA : Session := { userId := "A", email := "a@x.com" }

/-- Sample session of user B. -/
def sessionB : Session := { userId := "B", email := "b@x.com" }

/-- Sample remote table holding rows of both users. -/
def table0 : List Task := [taskA1, taskB1, taskA2]

/-- The initial component state: signed out, nothing typed, no tasks. -/
def state0 : AppState :=
  { session := none, email := "", otpSent := false, tasks := [],
    newTask := "" }

/-- The initial world: initial state, no in-flight fetch. -/
def world0 : World := { app := state0, pending := [] }

/-- Sample state: signed in as A with a whitespace-only pending title. -/
def stateBlank : AppState :=
  { state0 with session := some sessionA, newTask := "   " }

/-- Sample state: signed in as A with a nonempty pending title. -/
def stateTyping : AppState :=
  { state0 with session := some sessionA, newTask := "buy milk" }

/-- Sample state: signed in as A with one uncompleted task listed. -/
def stateWithTask : AppState :=
  { state0 with session := some sessionA, tasks := [taskA1] }

/-- Sample state: signed out, with a nonempty pending title. -/
def stateNoUser : AppState := { state0 with newTask := "buy milk" }

/-- Interleaving: a fetch for A is issued, the session then changes to
B (issuing a fetch for B), the fetch for B resolves, and the stale
fetch for A resolves last. -/
def staleTrace : List Event :=
  [Event.sessionChange (some sessionA),
   Event.sessionChange (some sessionB),
   Event.resolveFetch 1 table0,
   Event.resolveFetch 0 table0]

/-- Interleaving: a fetch for A is issued, the user signs out, then
the stale fetch for A resolves. -/
def signOutTrace : List Event :=
  [Event.sessionChange (some sessionA),
   Event.sessionChange none,
   Event.resolveFetch 0 table0]

/-- Claim C3: on a backend error result, each of the four task
operations (fetch resolution, add, toggle, delete) leaves the whole
component state exactly as it was; the embedded handlers are total, so
the error is only reported, never propagated. -/
theorem error_results_leave_state_unchanged (st : AppState) (msg : String)
    (dF : Option (List Task)) (dA : Option Task) (dT dD : Option Unit)
    (id : String) (b : Bool) :
    fetchTasksResolve st { data := dF, error := some msg } = st ∧
    addTaskStep st { data := dA, error := some msg } = st ∧
    toggleTaskStep st id b { data := dT, error := some msg } = st ∧
    deleteTaskStep st id { data := dD, error := some msg } = st := by
  refine ⟨rfl, ?_, rfl, rfl⟩
  unfold addTaskStep
  cases addTaskRequest st <;> rfl

/-- Claim C5: when the pending title is empty after trimming,
`addTask` issues no insert request and leaves the state unchanged. -/
theorem addTask_blank_title_noop (st : AppState) (resp : DbResponse Task)
    (h : jsTrim st.newTask = "") :
    addTaskRequest st = none ∧ addTaskStep st resp = st := by
  have hreq : addTaskRequest st = none := by
    unfold addTaskRequest
    simp [h]
  refine ⟨hreq, ?_⟩
  unfold addTaskStep
  rw [hreq]

/-- Witness for claim C5 at a whitespace-only title. -/
theorem addTask_blank_title_noop_witness :
    addTaskRequest stateBlank = none ∧
    addTaskStep stateBlank { data := some taskB1, error := none } =
      stateBlank :=
  addTask_blank_title_noop stateBlank
    { data := some taskB1, error := none } (by decide)

/-- Claim C10: with no authenticated user id available, `addTask`
issues no insert request and leaves the whole state (task list and
pending title included) unchanged, whatever the title. -/
theorem addTask_unauthenticated_noop (st : AppState) (resp : DbResponse Task)
    (h : sessionUserId st = none) :
    addTaskRequest st = none ∧ addTaskStep st resp = st := by
  have hreq : addTaskRequest st = none := by
    unfold addTaskRequest
    rw [h]
    split <;> rfl
  refine ⟨hreq, ?_⟩
  unfold addTaskStep
  rw [hreq]

/-- Witness for claim C10: signed out, nonempty pending title. -/
theorem addTask_unauthenticated_noop_witness :
    addTaskRequest stateNoUser = none ∧
    addTaskStep stateNoUser { data := some taskB1, error := none } =
      stateNoUser :=
  addTask_unauthenticated_noop stateNoUser
    { data := some taskB1, error := none } (by decide)

/-- Claim C6: with a nonempty trimmed title and an authenticated user,
a successful `addTask` prepends exactly the server-returned record to
the front of the local list, keeping every previously listed task in
its prior order. -/
theorem addTask_success_prepends (st : AppState) (uid : String) (d : Task)
    (htitle : ¬ jsTrim st.newTask = "") (huser : sessionUserId st = some uid) :
    (addTaskStep st { data := some d, error := none }).tasks =
      d :: st.tasks := by
  unfold addTaskStep addTaskRequest
  rw [huser]
  simp [htitle]

/-- Witness for claim C6 on a concrete typing state. -/
theorem addTask_success_prepends_witness :
    (addTaskStep stateTyping { data := some taskB1, error := none }).tasks =
      taskB1 :: stateTyping.tasks :=
  addTask_success_prepends stateTyping "A" taskB1 (by decide) (by decide)

/-- Claim C9: starting from a state not yet showing the confirmation,
`signInWithEmail` signals link sent (sets `otpSent`) exactly when the
provider call succeeds, leaves the state unchanged on provider error,
and in neither case establishes a session itself. -/
theorem signInWithEmail_signals_iff_success (st : AppState)
    (resp : AuthResponse) (h : st.otpSent = false) :
    ((signInWithEmailStep st resp).otpSent = true ↔ resp.error = none) ∧
    (∀ msg, resp.error = some msg → signInWithEmailStep st resp = st) ∧
    (signInWithEmailStep st resp).session = st.session := by
  obtain ⟨err⟩ := resp
  cases err <;> simp [signInWithEmailStep, h]

/-- Witness for claim C9 at a successful provider call. -/
theorem signInWithEmail_signals_iff_success_witness :
    ((signInWithEmailStep state0 { error := none }).otpSent = true ↔
      ({ error := none } : AuthResponse).error = none) ∧
    (∀ msg, ({ error := none } : AuthResponse).error = some msg →
      signInWithEmailStep state0 { error := none } = state0) ∧
    (signInWithEmailStep state0 { error := none }).session =
      state0.session :=
  signInWithEmail_signals_iff_success state0 { error := none } (by decide)

/-- Claim C2: if every listed record carrying the given identifier has
completion value b, toggling that identifier twice — first with
argument b, then with the flipped argument, both calls succeeding —
returns the state exactly to the original. -/
theorem toggleTask_twice_restores (st : AppState) (id : String) (b : Bool)
    (hall : ∀ t ∈ st.tasks, t.id = id → t.is_completed = b) :
    toggleTaskStep (toggleTaskStep st id b { data := none, error := none })
      id (!b) { data := none, error := none } = st := by
  have key : ∀ l : List Task, (∀ t ∈ l, t.id = id → t.is_completed = b) →
      ((l.map fun t =>
          if t.id = id then { t with is_completed := !b } else t).map
        fun t =>
          if t.id = id then { t with is_completed := !(!b) } else t) = l := by
    intro l
    induction l with
    | nil => intro _; rfl
    | cons t ts ih =>
      intro hl
      simp only [List.map_cons, List.cons.injEq]
      constructor
      · by_cases hid : t.id = id
        · have hb : t.is_completed = b := hl t (List.mem_cons_self t ts) hid
          cases t with
          | mk tid ttitle tuser tcomp tcreated => simp_all [Bool.not_not]
        · simp [hid]
      · exact ih fun u hu => hl u (List.mem_cons_of_mem t hu)
  obtain ⟨sess, em, otp, tasks, nt⟩ := st
  simp only [toggleTaskStep, AppState.mk.injEq, true_and, and_true]
  exact key tasks hall

/-- Witness for claim C2 on a concrete single-task state. -/
theorem toggleTask_twice_restores_witness :
    toggleTaskStep
      (toggleTaskStep stateWithTask "t1" false
        { data := none, error := none })
      "t1" (!false) { data := none, error := none } = stateWithTask :=
  toggleTask_twice_restores stateWithTask "t1" false (by decide)

/-- Claim C7: a successful toggle changes exactly the completion flag
of the records whose identifier matches — pointwise, preserving length
and every other field — and a successful delete keeps exactly the
records whose identifier differs. -/
theorem toggle_delete_touch_only_matching (st : AppState) (id : String)
    (b : Bool) (i : Nat) :
    (toggleTaskStep st id b { data := none, error := none }).tasks.length =
      st.tasks.length ∧
    (toggleTaskStep st id b { data := none, error := none }).tasks[i]? =
      (st.tasks[i]?).map (fun t =>
        if t.id = id then { t with is_completed := !b } else t) ∧
    (∀ t : Task,
      t ∈ (deleteTaskStep st id { data := none, error := none }).tasks ↔
        t ∈ st.tasks ∧ ¬ t.id = id) := by
  refine ⟨?_, ?_, ?_⟩
  · simp [toggleTaskStep]
  · simp [toggleTaskStep, List.getElem?_map]
  · intro t
    simp [deleteTaskStep, List.mem_filter]

/-- Claim C4: resolving a successful fetch for a user with the query
result yields a local list holding only tasks owned by that user,
ordered by creation timestamp descending. -/
theorem fetch_success_owned_and_sorted (st : AppState) (table : List Task)
    (uid : String) :
    (∀ t ∈ (fetchTasksResolve st
        { data := some (runSelect table uid), error := none }).tasks,
      t.user_id = uid) ∧
    List.Sorted createdDesc
      (fetchTasksResolve st
        { data := some (runSelect table uid), error := none }).tasks := by
  constructor
  · intro t ht
    have ht2 : t ∈ runSelect table uid := ht
    unfold runSelect at ht2
    rw [List.mem_insertionSort] at ht2
    exact of_decide_eq_true (List.mem_filter.mp ht2).2
  · show List.Sorted createdDesc (runSelect table uid)
    unfold runSelect
    exact List.sorted_insertionSort createdDesc _

/-- Witness for claim C4: ownership of a listed task over a concrete
table. -/
theorem fetch_success_owned_and_sorted_witness :
    taskA1.user_id = "A" :=
  (fetch_success_owned_and_sorted state0 table0 "A").1 taskA1 (by decide)

/-- Claim C1, refuted by the code: after the stale interleaving the
session belongs to B, yet the resolution of the stale fetch for A has
overwritten the local list with tasks all owned by A — stale results
for a no-longer-current user are not discarded. -/
theorem stale_fetch_overwrites_new_session :
    (runEvents world0 staleTrace).app.session = some sessionB ∧
    (runEvents world0 staleTrace).app.tasks = [taskA2, taskA1] ∧
    (∀ t ∈ (runEvents world0 staleTrace).app.tasks,
      ¬ t.user_id = sessionB.userId) := by
  decide

/-- Claim C8, refuted by the code: signing out clears the list, but a
stale in-flight fetch subsequently repopulates it, so a state with no
session and a nonempty local task list is reachable. -/
theorem stale_fetch_populates_signed_out :
    (runEvents world0 signOutTrace).app.session = none ∧
    ¬ (runEvents world0 signOutTrace).app.tasks = [] := by
  decide

end CampingNote
